import Mathlib

/-!
Verification of the FeedRoom trend-validation / JSON-extraction core
(`src/utils.py`) against its natural-language specification.

Shallow embedding conventions:
* Python values are modelled by `PyVal`.  Python floats are modelled
  exactly as decimal fractions `num / 10 ^ den10` (an `Int` mantissa and a
  power-of-ten denominator); the double-rounding of IEEE arithmetic is not
  modelled — every concrete value exercised here is exactly representable.
* Python dicts with string keys are association lists (`Trend`); lookup is
  first-match, assignment replaces in place (matching CPython's
  insertion-order-preserving update semantics).
* Code that can raise returns `Except String α`; the string is a stand-in
  for the exception's message.  `try/except` blocks in the source become
  `match` on the `Except` value.
* `str()` of containers is rendered one level deep (nested containers
  print as a placeholder).  No modelled behaviour depends on the rendering
  of a container beyond it being a non-empty string.
* `pd.isna` is modelled as "is `None`" (NaN and array arguments are not
  modelled; no claim distinguishes them).
-/

namespace FeedRoom

/-- Model of a Python value as passed around by `utils.py`.  Floats are
exact decimal fractions `num / 10 ^ den10`. -/
inductive PyVal where
  | none : PyVal
  | bool : Bool → PyVal
  | int : Int → PyVal
  | float : Int → Nat → PyVal
  | str : String → PyVal
  | list : List PyVal → PyVal
  | dict : List (String × PyVal) → PyVal

/-- A Python dict with string keys, as an insertion-ordered association
list. -/
abbrev Trend := List (String × PyVal)

/-- First-match lookup, modelling `d[k]` / `k in d` on a Python dict. -/
def dictGet : Trend → String → Option PyVal
  | [], _ => Option.none
  | (k2, v) :: rest, k => if k2 = k then some v else dictGet rest k

/-- Modelling `d[k] = v`: replace in place if the key exists (CPython keeps
the original insertion position), else append. -/
def dictSet : Trend → String → PyVal → Trend
  | [], k, v => [(k, v)]
  | (k2, v2) :: rest, k, v =>
      if k2 = k then (k2, v) :: rest else (k2, v2) :: dictSet rest k v

/-- Modelling `d.get(k, default)`. -/
def pyGet (d : Trend) (k : String) (default : PyVal) : PyVal :=
  (dictGet d k).getD default

/-- Python truthiness of a value (`if not x`). -/
def pyFalsy : PyVal → Bool
  | .none => true
  | .bool b => !b
  | .int n => n == 0
  | .float num _ => num == 0
  | .str s => s == ""
  | .list xs => xs.isEmpty
  | .dict xs => xs.isEmpty

/-- Whether the value is a Python dict (`isinstance(x, dict)`). -/
def isDictVal : PyVal → Bool
  | .dict _ => true
  | _ => false

/-- Whether the value is a Python str (`isinstance(x, str)`). -/
def isStrVal : PyVal → Bool
  | .str _ => true
  | _ => false

/-- Python whitespace for `str.strip()` (ASCII subset). -/
def pyIsSpace (c : Char) : Bool :=
  c = ' ' ∨ c = '\t' ∨ c = '\n' ∨ c = '\r' ∨ c = '\x0b' ∨ c = '\x0c'

/-- Modelling `s.strip()`. -/
def pyTrim (s : String) : String :=
  String.mk (((s.data.dropWhile pyIsSpace).reverse.dropWhile pyIsSpace).reverse)

/-- Modelling `s.upper()` (ASCII; the source only feeds it ASCII-relevant
data). -/
def pyUpper (s : String) : String :=
  String.mk (s.data.map Char.toUpper)

/-- Modelling `s.lower()` (ASCII). -/
def pyLower (s : String) : String :=
  String.mk (s.data.map Char.toLower)

/-- Decimal rendering of the exact float `num / 10 ^ den10`, matching
CPython's `str` on the short terminating decimals that occur here. -/
def floatStr (num : Int) (den10 : Nat) : String :=
  let sign := if num < 0 then "-" else ""
  let a := num.natAbs
  let ip := a / 10 ^ den10
  let fpDigits := (toString (a % 10 ^ den10)).data
  let fpPadded := List.replicate (den10 - fpDigits.length) '0' ++ fpDigits
  let fpTrimmed := (fpPadded.reverse.dropWhile (fun c => c = '0')).reverse
  sign ++ toString ip ++ "." ++
    (if fpTrimmed.isEmpty then "0" else String.mk fpTrimmed)

/-- Scalar rendering for `str()`.  Containers one level down render as a
placeholder; no modelled behaviour inspects that text. -/
def pyStrScalar : PyVal → String
  | .none => "None"
  | .bool b => if b then "True" else "False"
  | .int n => toString n
  | .float num den10 => floatStr num den10
  | .str s => s
  | .list _ => "[...]"
  | .dict _ => "\x7b...\x7d"

/-- Modelling `str(x)`.  Lists render their elements one level deep
(without Python's quote marks around strings — an approximation; the code
only ever tests such renderings for emptiness). -/
def pyStr : PyVal → String
  | .list xs => "[" ++ String.intercalate ", " (xs.map pyStrScalar) ++ "]"
  | v => pyStrScalar v

/-- Characters kept by `re.sub(r'[^\d.KMB]', '', s)` in
`normalize_volume`. -/
def volumeChar (c : Char) : Bool :=
  c.isDigit ∨ c = '.' ∨ c = 'K' ∨ c = 'M' ∨ c = 'B'

/-- Modelling the `re.sub` character filter. -/
def filterVolume (s : String) : String :=
  String.mk (s.data.filter volumeChar)

/-- Modelling `s.replace(single-char, "")`: removing every occurrence of a
one-character pattern is a character filter. -/
def removeChar (s : String) (c : Char) : String :=
  String.mk (s.data.filter (fun c2 => c2 ≠ c))

/-- Decimal-literal scanner underlying the model of `float(s)`: digits with
at most one dot and at least one digit, nothing else.  Returns the mantissa
and the number of fraction digits (value = mantissa / 10 ^ fracDigits).
After `normalize_volume`'s character filter the argument can only hold
digits, dots and the letters K/M/B, and `float` rejects everything in that
set except plain decimal literals. -/
def parseDecimalAux : List Char → Nat → Nat → Bool → Bool → Option (Nat × Nat)
  | [], mant, frac, _, seenDigit =>
      if seenDigit then some (mant, frac) else Option.none
  | c :: rest, mant, frac, seenDot, seenDigit =>
      if c.isDigit then
        parseDecimalAux rest (mant * 10 + (c.toNat - 48))
          (if seenDot then frac + 1 else frac) seenDot true
      else if c = '.' then
        if seenDot then Option.none
        else parseDecimalAux rest mant frac true seenDigit
      else Option.none

/-- Modelling `float(s)` on the strings reachable in `normalize_volume`
(no sign, no exponent): `none` models `float` raising `ValueError`. -/
def parseDecimal (s : String) : Option (Nat × Nat) :=
  parseDecimalAux s.data 0 0 false false

/-- Modelling `int(float(s) * mult)` for a non-negative decimal
`mantissa / 10 ^ fracDigits`: exact rational truncation (floor, since the
value is non-negative). -/
def scaledTrunc (mant : Nat) (frac : Nat) (mult : Nat) : Int :=
  Int.ofNat (mant * mult / 10 ^ frac)

/-- Embedding of `normalize_volume` (src/utils.py lines 13-34).  The
trailing `except: return 0` is the `Option.none => 0` arms. -/
def normalize_volume (v : PyVal) : Int :=
  match v with
  | .none => 0                    -- pd.isna(volume_str)
  | .str "" => 0                  -- volume_str == ""
  | v =>
    let s := filterVolume (pyUpper (pyTrim (pyStr v)))
    if s = "" then 0
    else if s.data.contains 'K' then
      match parseDecimal (removeChar s 'K') with
      | some (m, f) => scaledTrunc m f 1000
      | Option.none => 0
    else if s.data.contains 'M' then
      match parseDecimal (removeChar s 'M') with
      | some (m, f) => scaledTrunc m f 1000000
      | Option.none => 0
    else if s.data.contains 'B' then
      match parseDecimal (removeChar s 'B') with
      | some (m, f) => scaledTrunc m f 1000000000
      | Option.none => 0
    else
      match parseDecimal s with
      | some (m, f) => scaledTrunc m f 1
      | Option.none => 0


/-- Digit scanner for `int(str)`: at least one digit, digits only. -/
def digitsToNat : List Char → Option Nat → Option Nat
  | [], acc => acc
  | c :: rest, acc =>
      if c.isDigit then
        digitsToNat rest (some ((acc.getD 0) * 10 + (c.toNat - 48)))
      else Option.none

/-- Modelling `int(s)` on a string: strip whitespace, optional sign,
digits (Python's underscore digit separators are not modelled; nothing
here feeds them in). -/
def parseIntStr (s : String) : Option Int :=
  match (pyTrim s).data with
  | '-' :: rest => (digitsToNat rest Option.none).map (fun n => -(Int.ofNat n))
  | '+' :: rest => (digitsToNat rest Option.none).map Int.ofNat
  | cs => (digitsToNat cs Option.none).map Int.ofNat

/-- Truncation toward zero of `num / 10 ^ den10`, modelling `int(float)`. -/
def floatTrunc (num : Int) (den10 : Nat) : Int :=
  match num with
  | .ofNat n => Int.ofNat (n / 10 ^ den10)
  | .negSucc m => -(Int.ofNat ((m + 1) / 10 ^ den10))

/-- Modelling `int(x)`: `.error` models the `ValueError`/`TypeError` that
`int` raises on non-coercible arguments. -/
def pyInt : PyVal → Except String Int
  | .bool b => .ok (if b then 1 else 0)
  | .int n => .ok n
  | .float num den10 => .ok (floatTrunc num den10)
  | .str s =>
      match parseIntStr s with
      | some n => .ok n
      | Option.none => .error ("ValueError: invalid literal for int: " ++ s)
  | v => .error ("TypeError: int() argument: " ++ pyStr v)

/-- The `sentiment_map` table (lines 87-92). -/
def sentiment_map : List (String × String) :=
  [("positive", "excited"), ("negative", "concerned"),
   ("neutral", "curious"), ("mixed", "controversial")]

/-- Modelling `m.get(k, default)` on a str-to-str dict. -/
def lookupStr (m : List (String × String)) (k : String) (default : String) :
    String :=
  match m.find? (fun p => p.1 == k) with
  | some p => p.2
  | Option.none => default

/-- The `required` table (lines 38-41); `.error` models the `KeyError`
raised at line 47 when the platform tag is not one of its keys. -/
def requiredFields (platform : String) : Except String (List String) :=
  if platform = "google" then
    .ok ["region", "rank", "keyword", "search_volume", "category", "velocity"]
  else if platform = "twitter" then
    .ok ["region", "rank", "keyword", "mention_volume", "category", "velocity"]
  else .error ("KeyError: " ++ platform)

/-- Line 48: `field not in trend or trend[field] is None or
str(trend[field]).strip() == ''`. -/
def missingOrEmpty (trend : Trend) (f : String) : Bool :=
  match dictGet trend f with
  | Option.none => true
  | some .none => true
  | some v => pyTrim (pyStr v) == ""

/-- Lines 47-49: one error message per missing/empty required field. -/
def requiredErrors (trend : Trend) (fields : List String) : List String :=
  fields.filterMap (fun f =>
    if missingOrEmpty trend f then some ("Missing or empty: " ++ f)
    else Option.none)

/-- Line 55: `trend['region'] in ['USA', 'India']` (value equality against
the two string literals). -/
def regionOk (v : PyVal) : Bool :=
  match v with
  | .str s => s == "USA" || s == "India"
  | _ => false

/-- Character-level model of `s.split(',')`. -/
def splitCommaAux : List Char → List Char → List (List Char)
  | [], acc => [acc.reverse]
  | c :: rest, acc =>
      if c = ',' then acc.reverse :: splitCommaAux rest []
      else splitCommaAux rest (c :: acc)

/-- Modelling `s.split(',')`. -/
def splitComma (s : String) : List String :=
  (splitCommaAux s.data []).map String.mk

/-- Lines 75-81 / 126-132: a list field accepted as a comma-separated
string (split, strip, drop empties) or a list, anything else becoming
the empty list. -/
def relatedToList (v : PyVal) : PyVal :=
  match v with
  | .str s => .list (((splitComma s).map pyTrim).filterMap
      (fun x => if x == "" then Option.none else some (.str x)))
  | .list xs => .list xs
  | _ => .list []

/-- The default `sentiment_breakdown` tables (lines 103-112), keyed by the
already-mapped `primary_sentiment`. -/
def defaultBreakdown (primary : String) : Trend :=
  if primary = "excited" then
    [("excited", .int 70), ("curious", .int 20), ("celebrating", .int 10)]
  else if primary = "concerned" then
    [("concerned", .int 70), ("curious", .int 20), ("controversial", .int 10)]
  else if primary = "celebrating" then
    [("celebrating", .int 70), ("excited", .int 20), ("curious", .int 10)]
  else if primary = "controversial" then
    [("controversial", .int 60), ("concerned", .int 20), ("curious", .int 20)]
  else
    [("curious", .int 60), ("excited", .int 20), ("concerned", .int 20)]

/-- Google branch of the normalizer (lines 68-81).  The unguarded
`int(trend.get('sentiment_score', 50))` at line 71 can raise, which the
`.error` propagation models. -/
def googleNormalize (trend : Trend) (normalized : Trend) :
    Except String Trend :=
  let normalized := dictSet normalized "search_volume"
      (.int (normalize_volume (pyGet trend "search_volume" (.int 0))))
  let normalized := dictSet normalized "public_sentiment"
      (.str (pyLower (pyStr (pyGet trend "public_sentiment" (.str "curious")))))
  match pyInt (pyGet trend "sentiment_score" (.int 50)) with
  | .error e => .error e
  | .ok n =>
    let normalized := dictSet normalized "sentiment_score" (.int n)
    let normalized := dictSet normalized "trend_type"
        (.str (pyStr (pyGet trend "trend_type" (.str "search"))))
    .ok (dictSet normalized "related_searches"
        (relatedToList (pyGet trend "related_searches" (.list []))))

/-- Lines 114-132: the five per-bucket sentiment fields coerced with
unguarded `int()` (which can raise), the three aggregates, and the hashtag
list normalization. -/
def twitterBreakdownFields (trend : Trend) (breakdown : Trend)
    (normalized : Trend) : Except String Trend :=
  match pyInt (pyGet breakdown "excited" (.int 0)) with
  | .error e => .error e
  | .ok exc =>
  match pyInt (pyGet breakdown "concerned" (.int 0)) with
  | .error e => .error e
  | .ok con =>
  match pyInt (pyGet breakdown "curious" (.int 0)) with
  | .error e => .error e
  | .ok cur =>
  match pyInt (pyGet breakdown "celebrating" (.int 0)) with
  | .error e => .error e
  | .ok cel =>
  match pyInt (pyGet breakdown "controversial" (.int 0)) with
  | .error e => .error e
  | .ok ctr =>
    let normalized := dictSet normalized "sentiment_excited" (.int exc)
    let normalized := dictSet normalized "sentiment_concerned" (.int con)
    let normalized := dictSet normalized "sentiment_curious" (.int cur)
    let normalized := dictSet normalized "sentiment_celebrating" (.int cel)
    let normalized := dictSet normalized "sentiment_controversial" (.int ctr)
    let normalized := dictSet normalized "sentiment_positive" (.int (exc + cel))
    let normalized := dictSet normalized "sentiment_neutral" (.int cur)
    let normalized := dictSet normalized "sentiment_negative" (.int (con + ctr))
    .ok (dictSet normalized "related_hashtags"
        (relatedToList (pyGet trend "related_hashtags" (.list []))))

/-- Twitter branch of the normalizer (lines 83-132).  The five unguarded
`int(breakdown.get(...))` calls at lines 114-118 can raise. -/
def twitterNormalize (trend : Trend) (normalized : Trend) :
    Except String Trend :=
  let normalized := dictSet normalized "mention_volume"
      (.int (normalize_volume (pyGet trend "mention_volume" (.int 0))))
  let primary0 := pyLower (pyStr (pyGet trend "primary_sentiment" (.str "curious")))
  let primary := lookupStr sentiment_map primary0 primary0
  let normalized := dictSet normalized "primary_sentiment" (.str primary)
  let normalized := dictSet normalized "sentiment_intensity"
      (.str (pyLower (pyStr (pyGet trend "sentiment_intensity" (.str "moderate")))))
  let normalized := dictSet normalized "hashtag_type"
      (.str (pyStr (pyGet trend "hashtag_type" (.str "keyword"))))
  let rawBreakdown := pyGet trend "sentiment_breakdown" (.dict [])
  let breakdown :=
    match rawBreakdown with
    | .dict d => if pyFalsy (.dict d) then defaultBreakdown primary else d
    | _ => defaultBreakdown primary
  twitterBreakdownFields trend breakdown normalized

/-- Line 135: lower-case, then replace spaces and hyphens with
underscores (single-character `str.replace` is a character map). -/
def snakeVelocity (s : String) : String :=
  String.mk (s.data.map (fun c =>
    let c2 := c.toLower
    if c2 = ' ' ∨ c2 = '-' then '_' else c2))

/-- Common normalized fields (lines 134-138). -/
def commonFields (trend : Trend) (normalized : Trend) : Trend :=
  let normalized := dictSet normalized "velocity"
      (.str (snakeVelocity (pyStr (pyGet trend "velocity" (.str "steady")))))
  let normalized := dictSet normalized "category"
      (.str (pyStr (pyGet trend "category" (.str "Unknown"))))
  let normalized := dictSet normalized "context"
      (.str (pyStr (pyGet trend "context" (.str ""))))
  dictSet normalized "why_trending"
      (.str (pyStr (pyGet trend "why_trending" (.str ""))))

/-- State-tracking embedding of `validate_trend_schema` (lines 36-140).
The second component is the final value of the caller's `trend` object:
the source assigns only to `normalized` (initialized as `trend.copy()` at
line 44, with no in-place mutation of nested values anywhere in the
function), so every return path carries `trend` through unchanged, and
returning it makes that frame property a provable statement.  A `.error`
first component models an exception escaping the function (the uncaught
`KeyError` at line 47 and the `int()` coercions at lines 71 and
114-118). -/
def validate_trend_schemaSt (trend : Trend) (platform : String) :
    Except String (Bool × List String × Option Trend) × Trend :=
  match requiredFields platform with
  | .error e => (.error e, trend)
  | .ok fields =>
    let errs := requiredErrors trend fields
    if errs.isEmpty then
      let normalized := trend
      let errs := if regionOk (pyGet trend "region" .none) then ([] : List String)
                  else ["Invalid region: " ++ pyStr (pyGet trend "region" .none)]
      let rankv := pyGet trend "rank" .none
      let step :=
        match pyInt rankv with
        | .ok n => (errs, dictSet normalized "rank" (.int n))
        | .error _ => (errs ++ ["Invalid rank: " ++ pyStr rankv], normalized)
      let errs := step.1
      let normalized := dictSet step.2 "keyword"
          (.str (pyTrim (pyStr (pyGet trend "keyword" .none))))
      match (if platform = "google" then googleNormalize trend normalized
             else twitterNormalize trend normalized) with
      | .error e => (.error e, trend)
      | .ok normalized2 =>
          (.ok (errs.isEmpty, errs, some (commonFields trend normalized2)), trend)
    else (.ok (false, errs, Option.none), trend)

/-- Embedding of `validate_trend_schema` proper: the value the call
returns (or the exception it raises). -/
def validate_trend_schema (trend : Trend) (platform : String) :
    Except String (Bool × List String × Option Trend) :=
  (validate_trend_schemaSt trend platform).1

/-- One entry of the `report['errors']` ledger (lines 156-160 /
163-167). -/
structure ErrEntry where
  index : Nat
  keyword : PyVal
  errs : List String

/-- The report dict built by `validate_and_normalize_trends` (line
145). -/
structure Report where
  total : Nat
  valid : Nat
  invalid : Nat
  errors : List ErrEntry

/-- Model of `report['valid'] += 1` (line 153). -/
def bumpValid (r : Report) : Report :=
  ⟨r.total, r.valid + 1, r.invalid, r.errors⟩

/-- Model of `report['invalid'] += 1; report['errors'].append(e)` (lines
155-160 / 162-167). -/
def bumpInvalid (r : Report) (e : ErrEntry) : Report :=
  ⟨r.total, r.valid, r.invalid + 1, r.errors ++ [e]⟩

/-- One iteration of the loop in `validate_and_normalize_trends` (lines
147-167).  A dict element runs `validate_trend_schema` under the `try`;
any exception it raises is caught into the ledger (lines 161-167).  For a
non-dict element the source itself ends up raising uncaught: `.get` on a
non-dict raises `AttributeError` at the ledger line inside the `except`
handler (either entered via the same `AttributeError` from line 158, or
reached after `trend.copy()` failed), so the exception escapes the
call. -/
def processTrend (platform : String) (idx : Nat) (t : PyVal)
    (acc : List Trend × Report) : Except String (List Trend × Report) :=
  match t with
  | .dict trend =>
    let vl := acc.1
    let r := acc.2
    match validate_trend_schema trend platform with
    | .ok (isValid, errs, normalized) =>
        match normalized with
        | some nd =>
            if isValid && !nd.isEmpty then
              .ok (vl ++ [nd], bumpValid r)
            else
              .ok (vl, bumpInvalid r
                ⟨idx, pyGet trend "keyword" (.str "Unknown"), errs⟩)
        | Option.none =>
            .ok (vl, bumpInvalid r
              ⟨idx, pyGet trend "keyword" (.str "Unknown"), errs⟩)
    | .error e =>
        .ok (vl, bumpInvalid r
          ⟨idx, pyGet trend "keyword" (.str "Unknown"),
            ["Validation error: " ++ e]⟩)
  | _ => .error "AttributeError: no attribute get"

/-- The enumerated loop of lines 147-167. -/
def processAll (platform : String) : List PyVal → Nat →
    List Trend × Report → Except String (List Trend × Report)
  | [], _, acc => .ok acc
  | t :: rest, idx, acc =>
    match processTrend platform idx t acc with
    | .error e => .error e
    | .ok acc2 => processAll platform rest (idx + 1) acc2

/-- Embedding of `validate_and_normalize_trends` (lines 142-169).  The
batch argument is a `PyVal` so that the `TypeError` which `len(trends)`
raises on a `None` batch is representable; only list batches are modelled
as iterable (Python would also iterate strings and dicts — no claim
depends on those). -/
def validate_and_normalize_trends (trends : PyVal) (platform : String) :
    Except String (List Trend × Report) :=
  match trends with
  | .list l => processAll platform l 0 ([], ⟨l.length, 0, 0, []⟩)
  | v => .error ("TypeError: object has no len(): " ++ pyStr v)

/-! ## JSON parsing

A model of the strict `json.loads` used at line 200: the standard JSON
grammar over the `PyVal` tree (objects to dicts with later duplicate keys
winning, numbers of integer syntax to ints, fractional/exponent numbers to
exact-decimal floats, `\uXXXX` escapes taken as direct code points —
surrogate pairs and the non-standard NaN/Infinity literals are not
modelled; nothing here feeds them in). -/

/-- JSON insignificant whitespace. -/
def jsonWs (c : Char) : Bool :=
  c = ' ' ∨ c = '\t' ∨ c = '\n' ∨ c = '\r'

/-- Skip insignificant whitespace. -/
def skipWs (cs : List Char) : List Char := cs.dropWhile jsonWs

/-- Single-character string escapes. -/
def escChar (c : Char) : Option Char :=
  if c = '"' then some '"'
  else if c = '\\' then some '\\'
  else if c = '/' then some '/'
  else if c = 'b' then some '\x08'
  else if c = 'f' then some '\x0c'
  else if c = 'n' then some '\n'
  else if c = 'r' then some '\r'
  else if c = 't' then some '\t'
  else Option.none

/-- Hexadecimal digit value. -/
def hexVal (c : Char) : Option Nat :=
  if c.isDigit then some (c.toNat - 48)
  else if 'a' ≤ c ∧ c ≤ 'f' then some (c.toNat - 87)
  else if 'A' ≤ c ∧ c ≤ 'F' then some (c.toNat - 55)
  else Option.none

/-- JSON string body scanner (after the opening quote): strict mode, so
unescaped control characters are rejected. -/
def parseJStringAux : List Char → List Char → Option (String × List Char)
  | [], _ => Option.none
  | '"' :: rest, acc => some (String.mk acc.reverse, rest)
  | '\\' :: rest, acc =>
      (match rest with
      | 'u' :: h1 :: h2 :: h3 :: h4 :: rest2 =>
          match hexVal h1, hexVal h2, hexVal h3, hexVal h4 with
          | some a, some b, some c, some d =>
              parseJStringAux rest2 (Char.ofNat (((a * 16 + b) * 16 + c) * 16 + d) :: acc)
          | _, _, _, _ => Option.none
      | e :: rest2 =>
          match escChar e with
          | some c2 => parseJStringAux rest2 (c2 :: acc)
          | Option.none => Option.none
      | [] => Option.none)
  | c :: rest, acc =>
      if c.toNat < 32 then Option.none else parseJStringAux rest (c :: acc)

/-- Split off a leading digit run. -/
def takeDigits (cs : List Char) : List Char × List Char :=
  (cs.takeWhile Char.isDigit, cs.dropWhile Char.isDigit)

/-- Numeric value of a digit run. -/
def digitsVal (ds : List Char) : Nat :=
  ds.foldl (fun a c => a * 10 + (c.toNat - 48)) 0

/-- Exponent tail after the `e`/`E` marker. -/
def expTail (cs : List Char) : Option (Int × List Char) :=
  let p : Bool × List Char :=
    match cs with
    | '+' :: r => (false, r)
    | '-' :: r => (true, r)
    | _ => (false, cs)
  let dp := takeDigits p.2
  if dp.1 = [] then Option.none
  else some (if p.1 then -(Int.ofNat (digitsVal dp.1))
             else Int.ofNat (digitsVal dp.1), dp.2)

/-- Optional exponent part; `none` consumes nothing. -/
def expPart (cs : List Char) : Option (Int × List Char) :=
  match cs with
  | 'e' :: rest => expTail rest
  | 'E' :: rest => expTail rest
  | _ => Option.none

/-- Build the exact-decimal float `± mant * 10 ^ (e - frac)`. -/
def mkFloat (neg : Bool) (mant : Nat) (frac : Nat) (e : Int) : PyVal :=
  let sign : Int := if neg then -1 else 1
  match e - Int.ofNat frac with
  | .ofNat k => .float (sign * Int.ofNat (mant * 10 ^ k)) 0
  | .negSucc k => .float (sign * Int.ofNat mant) (k + 1)

/-- JSON number: optional minus, integer part without leading zeros,
optional fraction and exponent.  Integer-syntax numbers become Python
ints, all others floats. -/
def parseNumber (cs : List Char) : Option (PyVal × List Char) :=
  let p : Bool × List Char :=
    match cs with
    | '-' :: rest => (true, rest)
    | _ => (false, cs)
  let dp := takeDigits p.2
  if dp.1 = [] then Option.none
  else if 1 < dp.1.length && dp.1.headD '0' == '0' then Option.none
  else
    match dp.2 with
    | '.' :: rest =>
        let fp := takeDigits rest
        if fp.1 = [] then Option.none
        else
          match expPart fp.2 with
          | some ep =>
              some (mkFloat p.1 (digitsVal (dp.1 ++ fp.1)) fp.1.length ep.1, ep.2)
          | Option.none =>
              some (mkFloat p.1 (digitsVal (dp.1 ++ fp.1)) fp.1.length 0, fp.2)
    | cs2 =>
        match expPart cs2 with
        | some ep => some (mkFloat p.1 (digitsVal dp.1) 0 ep.1, ep.2)
        | Option.none =>
            some (.int ((if p.1 then -1 else 1) * Int.ofNat (digitsVal dp.1)), cs2)

mutual

/-- Fueled JSON value parser. -/
def parseValue : Nat → List Char → Option (PyVal × List Char)
  | 0, _ => Option.none
  | Nat.succ fuel, cs =>
    match skipWs cs with
    | '\x7b' :: rest => parseMembersStart fuel rest
    | '[' :: rest => parseElemsStart fuel rest
    | '"' :: rest => (parseJStringAux rest []).map (fun p => (.str p.1, p.2))
    | 't' :: 'r' :: 'u' :: 'e' :: rest => some (.bool true, rest)
    | 'f' :: 'a' :: 'l' :: 's' :: 'e' :: rest => some (.bool false, rest)
    | 'n' :: 'u' :: 'l' :: 'l' :: rest => some (.none, rest)
    | cs2 => parseNumber cs2

/-- Object body after the opening brace. -/
def parseMembersStart : Nat → List Char → Option (PyVal × List Char)
  | 0, _ => Option.none
  | Nat.succ fuel, cs =>
    match skipWs cs with
    | '\x7d' :: rest => some (.dict [], rest)
    | cs2 => parseMembers fuel cs2 []

/-- Object member list; duplicate keys behave like repeated dict
assignment (later value wins, original insertion position kept). -/
def parseMembers : Nat → List Char → Trend → Option (PyVal × List Char)
  | 0, _, _ => Option.none
  | Nat.succ fuel, cs, acc =>
    match skipWs cs with
    | '"' :: rest =>
      (match parseJStringAux rest [] with
      | Option.none => Option.none
      | some (k, rest2) =>
        match skipWs rest2 with
        | ':' :: rest3 =>
          (match parseValue fuel rest3 with
          | Option.none => Option.none
          | some (v, rest4) =>
            match skipWs rest4 with
            | ',' :: rest5 => parseMembers fuel rest5 (dictSet acc k v)
            | '\x7d' :: rest5 => some (.dict (dictSet acc k v), rest5)
            | _ => Option.none)
        | _ => Option.none)
    | _ => Option.none

/-- Array body after the opening bracket. -/
def parseElemsStart : Nat → List Char → Option (PyVal × List Char)
  | 0, _ => Option.none
  | Nat.succ fuel, cs =>
    match skipWs cs with
    | ']' :: rest => some (.list [], rest)
    | cs2 => parseElems fuel cs2 []

/-- Array element list. -/
def parseElems : Nat → List Char → List PyVal → Option (PyVal × List Char)
  | 0, _, _ => Option.none
  | Nat.succ fuel, cs, acc =>
    match parseValue fuel cs with
    | Option.none => Option.none
    | some (v, rest) =>
      match skipWs rest with
      | ',' :: rest2 => parseElems fuel rest2 (acc ++ [v])
      | ']' :: rest2 => some (.list (acc ++ [v]), rest2)
      | _ => Option.none

end

/-- Model of the strict `json.loads`: one JSON document, with only
insignificant whitespace allowed around it. -/
def json_loads (s : String) : Option PyVal :=
  match parseValue (4 * s.data.length + 16) s.data with
  | some (v, rest) => if (skipWs rest).isEmpty then some v else Option.none
  | Option.none => Option.none

/-! ## parse_json_input (lines 175-204) -/

/-- Prefix test on character lists. -/
def isPrefixList : List Char → List Char → Bool
  | [], _ => true
  | _ :: _, [] => false
  | p :: ps, c :: cs => p = c && isPrefixList ps cs

/-- Substring occurrence test, modelling `pat in s`. -/
def occursSub (pat : List Char) : List Char → Bool
  | [] => isPrefixList pat []
  | c :: rest => isPrefixList pat (c :: rest) || occursSub pat rest

/-- The suffix after the first occurrence of `pat`, when `pat` occurs. -/
def afterFirst (pat : List Char) : List Char → Option (List Char)
  | [] => Option.none
  | c :: rest =>
      if isPrefixList pat (c :: rest) then some ((c :: rest).drop pat.length)
      else afterFirst pat rest

/-- The prefix up to the first occurrence of `pat` (everything when `pat`
does not occur), modelling `s.split(pat)[0]`. -/
def takeUntil (pat : List Char) : List Char → List Char
  | [] => []
  | c :: rest =>
      if isPrefixList pat (c :: rest) then []
      else c :: takeUntil pat rest

/-- The fence-selection step (lines 184-188): the content of the first
```json block when the text has one (`split('```json')[1].split('```')[0]`),
else of the first generic fence (`split('```')[1].split('```')[0]`), else
the text unchanged.  Because every occurrence of the tagged marker starts
with the generic one, taking the segment up to the next generic marker
coincides with Python's two-step split in both branches. -/
def selectFence (cs : List Char) : List Char :=
  let fj := "```json".data
  let f := "```".data
  if occursSub fj cs then takeUntil f ((afterFirst fj cs).getD [])
  else if occursSub f cs then takeUntil f ((afterFirst f cs).getD [])
  else cs

/-- Lines 193-198: slice from the first opening brace to the last closing
brace inclusive; when either is absent the text is left unchanged. -/
def braceSlice (cs : List Char) : List Char :=
  match cs.findIdx? (fun c => c == '\x7b'),
        cs.reverse.findIdx? (fun c => c == '\x7d') with
  | some s, some rj => (cs.take (cs.length - 1 - rj + 1)).drop s
  | _, _ => cs

/-- Embedding of `parse_json_input` (lines 175-204).  The argument is an
`Option String` so the `None` input is representable.  An `Option.none`
result models returning `None`; since the whole body runs under
`try/except` returning `None`, the function is total and the model needs
no exception channel. -/
def parse_json_input (text : Option String) : Option PyVal :=
  match text with
  | Option.none => Option.none
  | some t =>
    if t = "" then Option.none
    else
      json_loads (String.mk (braceSlice
        ((pyTrim (String.mk (selectFence (pyTrim t).data))).data)))

/-! ## Helper lemmas -/

theorem dictGet_set_same (d : Trend) (k : String) (v : PyVal) :
    dictGet (dictSet d k v) k = some v := by
  induction d with
  | nil => simp [dictSet, dictGet]
  | cons p rest ih =>
    by_cases h : p.1 = k
    · simp [dictSet, dictGet, h]
    · simp [dictSet, dictGet, h, ih]

theorem dictGet_set_ne (d : Trend) (k k2 : String) (v : PyVal) (h : k ≠ k2) :
    dictGet (dictSet d k v) k2 = dictGet d k2 := by
  induction d with
  | nil => simp [dictSet, dictGet, h]
  | cons p rest ih =>
    by_cases h2 : p.1 = k
    · simp [dictSet, dictGet, h2, h]
    · simp [dictSet, dictGet, h2, ih]

theorem toNat_charOfNat_valid (m : Nat) (hm : m.isValidChar) :
    (Char.ofNat m).val.toNat = m := by
  simp only [Char.ofNat, hm, dif_pos]
  rfl

theorem isUpper_toLower (c : Char) : (Char.toLower c).isUpper = false := by
  have hct : c.toNat = c.val.toNat := rfl
  by_cases h : 65 ≤ c.toNat ∧ c.toNat ≤ 90
  case pos =>
    have heq : Char.toLower c = Char.ofNat (c.toNat + 32) := by
      simp [Char.toLower, h]
    have hval : (Char.ofNat (c.toNat + 32)).val.toNat = c.toNat + 32 :=
      toNat_charOfNat_valid _ (Or.inl (by omega))
    rw [heq]
    simp only [Char.isUpper]
    have h90 : ¬((Char.ofNat (c.toNat + 32)).val ≤ 90) := by
      intro hle
      have h2 : (Char.ofNat (c.toNat + 32)).val.toNat ≤ 90 :=
        UInt32.toNat_le_of_le (by decide) hle
      omega
    simp [h90]
  case neg =>
    have heq : Char.toLower c = c := by
      simp [Char.toLower, h]
    rw [heq]
    simp only [Char.isUpper]
    rcases Nat.lt_or_ge c.toNat 65 with hlt | hge
    · have h65 : ¬(65 ≤ c.val) := by
        intro hle
        have h2 := UInt32.le_toNat_of_le (m := 65) (by decide) hle
        omega
      simp [h65]
    · have h90 : ¬(c.val ≤ 90) := by
        intro hle
        have h2 := UInt32.toNat_le_of_le (m := 90) (by decide) hle
        exact h ⟨hge, by omega⟩
      simp [h90]

theorem scaledTrunc_nonneg (m f mult : Nat) : 0 ≤ scaledTrunc m f mult := by
  unfold scaledTrunc
  exact Int.ofNat_nonneg _

theorem normalize_volume_nonneg (v : PyVal) : 0 ≤ normalize_volume v := by
  unfold normalize_volume
  split
  · exact Int.le_refl 0
  · exact Int.le_refl 0
  · dsimp only
    repeat' split
    all_goals first
      | exact Int.le_refl 0
      | exact scaledTrunc_nonneg _ _ _

theorem relatedToList_is_list (v : PyVal) : ∃ xs, relatedToList v = .list xs := by
  unfold relatedToList
  split <;> exact ⟨_, rfl⟩

/-- A dict element never lets an exception escape the loop body: every
outcome of `validate_trend_schema`, exceptional or not, is folded into the
accumulator. -/
theorem processTrend_dict_isOk (p : String) (idx : Nat) (d : Trend)
    (acc : List Trend × Report) :
    ∃ acc2, processTrend p idx (.dict d) acc = .ok acc2 := by
  unfold processTrend
  dsimp only
  cases h : validate_trend_schema d p with
  | error e => exact ⟨_, rfl⟩
  | ok res =>
    obtain ⟨isV, errs, nrm⟩ := res
    cases nrm with
    | none => exact ⟨_, rfl⟩
    | some nd =>
      dsimp only
      split <;> exact ⟨_, rfl⟩

theorem processAll_isOk (p : String) (l : List PyVal)
    (hl : ∀ t ∈ l, ∃ d, t = PyVal.dict d) :
    ∀ (idx : Nat) (acc : List Trend × Report),
      ∃ res, processAll p l idx acc = .ok res := by
  induction l with
  | nil => intro idx acc; exact ⟨acc, rfl⟩
  | cons t rest ih =>
    intro idx acc
    obtain ⟨d, rfl⟩ := hl t (List.mem_cons_self t rest)
    obtain ⟨acc2, h2⟩ := processTrend_dict_isOk p idx d acc
    obtain ⟨res, h3⟩ := ih (fun t2 ht2 => hl t2 (List.mem_cons_of_mem _ ht2)) (idx + 1) acc2
    exact ⟨res, by simp [processAll, h2, h3]⟩

/-! ## Concrete records used by witnesses and counterexamples -/

/-- A fully valid Google-platform record. -/
def gRec : Trend :=
  [("region", .str "USA"), ("rank", .int 1), ("keyword", .str "kw"),
   ("search_volume", .str "1.5M"), ("category", .str "Tech"),
   ("velocity", .str "Rising Fast")]

/-- Variant of `gRec` with a `sentiment_score` that `int()` cannot coerce. -/
def gRecBadScore : Trend :=
  [("region", .str "USA"), ("rank", .int 1), ("keyword", .str "kw"),
   ("search_volume", .str "1.5M"), ("category", .str "Tech"),
   ("velocity", .str "Rising Fast"), ("sentiment_score", .str "garbage")]

/-- A valid Google-platform record whose `public_sentiment` is an
arbitrary word outside every fixed sentiment vocabulary. -/
def gRecBananas : Trend :=
  [("region", .str "USA"), ("rank", .int 1), ("keyword", .str "kw"),
   ("search_volume", .int 10), ("category", .str "Tech"),
   ("velocity", .str "steady"), ("public_sentiment", .str "bananas")]

/-- A Google-platform record template with all required fields fixed and
the `search_volume` string left free. -/
def svTemplate (v : String) : Trend :=
  [("region", .str "USA"), ("rank", .int 1), ("keyword", .str "kw"),
   ("search_volume", .str v), ("category", .str "Tech"),
   ("velocity", .str "steady")]

/-! ## Claims -/

/-- C5: `normalize_volume` satisfies the spec's sample equations:
`"1.5M"` gives 1 500 000, `"250K"` gives 250 000, the empty string and
`"garbage"` give 0, and the number 42 passes through as 42. -/
theorem C5_normalize_volume_samples :
    normalize_volume (.str "1.5M") = 1500000 ∧
    normalize_volume (.str "250K") = 250000 ∧
    normalize_volume (.str "") = 0 ∧
    normalize_volume (.str "garbage") = 0 ∧
    normalize_volume (.int 42) = 42 := by
  refine ⟨?_, ?_, ?_, ?_, ?_⟩ <;> decide

/-- C10: `validate_trend_schema` never mutates the record passed in — on
every control path, including the exceptional ones, the caller's `trend`
object comes back exactly as it went in (all assignments in the source
target the `trend.copy()` held in `normalized`). -/
theorem C10_validate_no_mutation (trend : Trend) (platform : String) :
    (validate_trend_schemaSt trend platform).2 = trend := by
  unfold validate_trend_schemaSt
  dsimp only
  repeat' split
  all_goals rfl

/-- C10 witness: the frame property evaluated at a concrete record. -/
theorem C10_validate_no_mutation_witness :
    (validate_trend_schemaSt gRec "google").2 = gRec :=
  C10_validate_no_mutation gRec "google"

/-- C3 counterexample: the claim says every brace-less input returns
`None`, but the brace-less text `"42"` is itself valid JSON and
`parse_json_input` returns the parsed number 42, not `None`. -/
theorem C3_counterexample :
    ("42".data.contains '\x7b') = false ∧
    parse_json_input (some "42") = some (.int 42) := by
  exact ⟨rfl, rfl⟩

/-- C3 amended: a null or empty input returns `None`, and whenever the
fence-selected, brace-sliced text fails the strict JSON parse the result
is `None` (the function itself is total — every internal exception is
caught).  Brace-less text that is itself valid JSON, however, is returned
parsed rather than as `None`. -/
theorem C3_malformed_returns_none :
    parse_json_input Option.none = Option.none ∧
    parse_json_input (some "") = Option.none ∧
    ∀ t : String, t ≠ "" →
      json_loads (String.mk (braceSlice
        ((pyTrim (String.mk (selectFence (pyTrim t).data))).data))) = Option.none →
      parse_json_input (some t) = Option.none := by
  refine ⟨rfl, rfl, ?_⟩
  intro t ht h
  unfold parse_json_input
  dsimp only
  rw [if_neg ht]
  exact h

/-- C3 witness: the amended theorem applied to the truncated text
`"\x7boops"`. -/
theorem C3_malformed_returns_none_witness :
    parse_json_input (some "\x7boops") = Option.none :=
  C3_malformed_returns_none.2.2 "\x7boops" (by decide) rfl

/-- C2 counterexample: the text holds a well-formed JSON object wrapped in
a Markdown fence (its second fence), yet `parse_json_input` returns
`None` rather than that object's parse, because only the first fence is
ever examined. -/
theorem C2_counterexample :
    ("```\nhi\n```\n```\n\x7b\"a\": 1\x7d\n```" =
      "```\nhi\n```\n" ++ "```" ++ "\n\x7b\"a\": 1\x7d\n" ++ "```") ∧
    json_loads "\n\x7b\"a\": 1\x7d\n" = some (.dict [("a", .int 1)]) ∧
    parse_json_input (some "```\nhi\n```\n```\n\x7b\"a\": 1\x7d\n```") =
      Option.none := by
  exact ⟨rfl, rfl, rfl⟩

/-- C2 amended: for every non-empty text, when the content selected by the
fence rules (the first ```json fence if one occurs, else the first generic
fence, else the whole text), stripped and sliced from its first `\x7b` to
its last `\x7d`, parses under the strict JSON parser, `parse_json_input`
returns exactly that parse; a well-formed fenced object located in any
later fence is not found. -/
theorem C2_first_fence_parse (t : String) (v : PyVal) (ht : t ≠ "")
    (h : json_loads (String.mk (braceSlice
      ((pyTrim (String.mk (selectFence (pyTrim t).data))).data))) = some v) :
    parse_json_input (some t) = some v := by
  unfold parse_json_input
  dsimp only
  rw [if_neg ht]
  exact h

/-- C2 witness: a fenced object surrounded by prose is returned deep-equal
to its direct strict parse. -/
theorem C2_first_fence_parse_witness :
    parse_json_input (some "Sure! ```json\n\x7b\"a\": 1\x7d\n``` done") =
      some (.dict [("a", .int 1)]) :=
  C2_first_fence_parse "Sure! ```json\n\x7b\"a\": 1\x7d\n``` done"
    (.dict [("a", .int 1)]) (by decide) rfl

/-- C7 counterexample: a platform tag outside the supported set does not
fail fast — the `KeyError` it raises inside `validate_trend_schema` is
caught by the per-record `try/except` and swallowed into the error
ledger, and the batch call returns normally. -/
theorem C7_counterexample :
    validate_and_normalize_trends (.list [.dict gRec]) "search" =
      .ok ([], ⟨1, 0, 1,
        [⟨0, .str "kw", ["Validation error: KeyError: search"]⟩]⟩) := rfl

/-- C7 amended: a `None` batch does fail fast — `len(None)` raises a
`TypeError` that surfaces to the caller for every platform tag — but an
unsupported platform tag is swallowed per-record: each record receives a
`Validation error` ledger entry and the call returns normally. -/
theorem C7_null_batch_raises :
    (∀ platform : String,
      validate_and_normalize_trends PyVal.none platform =
        .error "TypeError: object has no len(): None") ∧
    validate_and_normalize_trends (.list [.dict gRec]) "search" =
      .ok ([], ⟨1, 0, 1,
        [⟨0, .str "kw", ["Validation error: KeyError: search"]⟩]⟩) :=
  ⟨fun _ => rfl, rfl⟩

/-- C7 witness: the null-batch half evaluated at a concrete platform. -/
theorem C7_null_batch_raises_witness :
    validate_and_normalize_trends PyVal.none "google" =
      .error "TypeError: object has no len(): None" :=
  C7_null_batch_raises.1 "google"

/-- C1: for every list of records (key-value dicts) and every supported
platform tag the batch call returns normally, and the conversion
mechanism is exact: a record whose validation raises becomes an error
ledger entry carrying that record's loop index and the exception text. -/
theorem C1_batch_never_raises (l : List Trend) (platform : String)
    (_hp : platform = "google" ∨ platform = "twitter") :
    (∃ res, validate_and_normalize_trends
        (.list (l.map PyVal.dict)) platform = .ok res) ∧
    (∀ (idx : Nat) (d : Trend) (acc : List Trend × Report) (e : String),
      validate_trend_schema d platform = .error e →
      processTrend platform idx (.dict d) acc =
        .ok (acc.1, bumpInvalid acc.2
          ⟨idx, pyGet d "keyword" (.str "Unknown"),
            ["Validation error: " ++ e]⟩)) := by
  constructor
  · unfold validate_and_normalize_trends
    exact processAll_isOk platform (l.map PyVal.dict)
      (by intro t ht; obtain ⟨d, _, rfl⟩ := List.mem_map.mp ht; exact ⟨d, rfl⟩) 0 _
  · intro idx d acc e he
    unfold processTrend
    dsimp only
    rw [he]

/-- C1 witness: the theorem applied to a concrete one-record batch on the
google platform. -/
theorem C1_batch_never_raises_witness :
    ∃ res, validate_and_normalize_trends
      (.list ([gRecBadScore].map PyVal.dict)) "google" = .ok res :=
  (C1_batch_never_raises [gRecBadScore] "google" (Or.inl rfl)).1

/-- One loop iteration keeps the report's arithmetic in step: the total is
untouched, exactly one of `valid`/`invalid` is incremented, and the error
ledger grows exactly when `invalid` does. -/
theorem processTrend_report (p : String) (idx : Nat) (t : PyVal)
    (acc acc2 : List Trend × Report)
    (h : processTrend p idx t acc = .ok acc2) :
    acc2.2.total = acc.2.total ∧
    acc2.2.valid + acc2.2.invalid = acc.2.valid + acc.2.invalid + 1 ∧
    (acc.2.errors.length = acc.2.invalid →
      acc2.2.errors.length = acc2.2.invalid) := by
  cases t with
  | dict d =>
    unfold processTrend at h
    dsimp only at h
    cases hv : validate_trend_schema d p with
    | error e =>
      rw [hv] at h
      cases h
      refine ⟨rfl, by simp [bumpInvalid]; omega, ?_⟩
      intro ha
      simp [bumpInvalid, ha]
    | ok res =>
      obtain ⟨isV, errs, nrm⟩ := res
      rw [hv] at h
      cases nrm with
      | none =>
        cases h
        refine ⟨rfl, by simp [bumpInvalid]; omega, ?_⟩
        intro ha
        simp [bumpInvalid, ha]
      | some nd =>
        dsimp only at h
        split at h
        · cases h
          refine ⟨rfl, by simp [bumpValid]; omega, ?_⟩
          intro ha
          simp [bumpValid, ha]
        · cases h
          refine ⟨rfl, by simp [bumpInvalid]; omega, ?_⟩
          intro ha
          simp [bumpInvalid, ha]
  | none => exact absurd h (by simp [processTrend])
  | bool b => exact absurd h (by simp [processTrend])
  | int n => exact absurd h (by simp [processTrend])
  | float num den => exact absurd h (by simp [processTrend])
  | str s => exact absurd h (by simp [processTrend])
  | list xs => exact absurd h (by simp [processTrend])

/-- The loop of lines 147-167 preserves the report arithmetic across the
whole batch. -/
theorem processAll_report (p : String) :
    ∀ (l : List PyVal) (idx : Nat) (acc res : List Trend × Report),
      processAll p l idx acc = .ok res →
      res.2.total = acc.2.total ∧
      res.2.valid + res.2.invalid = acc.2.valid + acc.2.invalid + l.length ∧
      (acc.2.errors.length = acc.2.invalid →
        res.2.errors.length = res.2.invalid) := by
  intro l
  induction l with
  | nil =>
    intro idx acc res h
    unfold processAll at h
    cases h
    exact ⟨rfl, by simp, fun h2 => h2⟩
  | cons t rest ih =>
    intro idx acc res h
    unfold processAll at h
    cases hs : processTrend p idx t acc with
    | error e => rw [hs] at h; cases h
    | ok acc2 =>
      rw [hs] at h
      obtain ⟨h1, h2, h3⟩ := processTrend_report p idx t acc acc2 hs
      obtain ⟨g1, g2, g3⟩ := ih (idx + 1) acc2 res h
      refine ⟨g1.trans h1, ?_, fun ha => g3 (h3 ha)⟩
      simp only [List.length_cons]
      omega

/-- C4: whenever the batch call returns, its report satisfies
`total = len(input)`, `valid + invalid = total` and
`len(errors) = invalid`. -/
theorem C4_report_invariants (l : List PyVal) (platform : String)
    (valid : List Trend) (r : Report)
    (h : validate_and_normalize_trends (.list l) platform = .ok (valid, r)) :
    r.total = l.length ∧ r.valid + r.invalid = r.total ∧
    r.errors.length = r.invalid := by
  unfold validate_and_normalize_trends at h
  obtain ⟨h1, h2, h3⟩ :=
    processAll_report platform l 0 ([], ⟨l.length, 0, 0, []⟩) (valid, r) h
  dsimp only at h1 h2 h3
  exact ⟨h1, by omega, h3 rfl⟩

/-- C4 witness: the invariants evaluated on a concrete two-record batch
with one valid and one exception-rejected record. -/
theorem C4_report_invariants_witness :
    (⟨2, 1, 1, [⟨1, .str "kw",
        ["Validation error: ValueError: invalid literal for int: garbage"]⟩]⟩ :
      Report).total = [PyVal.dict gRec, PyVal.dict gRecBadScore].length ∧
    (⟨2, 1, 1, [⟨1, .str "kw",
        ["Validation error: ValueError: invalid literal for int: garbage"]⟩]⟩ :
      Report).valid +
      (⟨2, 1, 1, [⟨1, .str "kw",
          ["Validation error: ValueError: invalid literal for int: garbage"]⟩]⟩ :
        Report).invalid =
      (⟨2, 1, 1, [⟨1, .str "kw",
          ["Validation error: ValueError: invalid literal for int: garbage"]⟩]⟩ :
        Report).total ∧
    (⟨2, 1, 1, [⟨1, .str "kw",
        ["Validation error: ValueError: invalid literal for int: garbage"]⟩]⟩ :
      Report).errors.length =
      (⟨2, 1, 1, [⟨1, .str "kw",
          ["Validation error: ValueError: invalid literal for int: garbage"]⟩]⟩ :
        Report).invalid :=
  C4_report_invariants [PyVal.dict gRec, PyVal.dict gRecBadScore] "google"
    [[("region", .str "USA"), ("rank", .int 1), ("keyword", .str "kw"),
      ("search_volume", .int 1500000), ("category", .str "Tech"),
      ("velocity", .str "rising_fast"), ("public_sentiment", .str "curious"),
      ("sentiment_score", .int 50), ("trend_type", .str "search"),
      ("related_searches", .list []), ("context", .str ""),
      ("why_trending", .str "")]]
    ⟨2, 1, 1, [⟨1, .str "kw",
      ["Validation error: ValueError: invalid literal for int: garbage"]⟩]⟩ rfl

/-! ## Symbolic characterization of a successful validation -/

/-- Splitting a successful `validate_trend_schema` run into its phases:
the platform is one of the two table keys, the result flag is emptiness
of the accumulated error list, the normalized record is the platform
branch's output passed through `commonFields`, and on full success
(`b = true`) the region check passed, the rank coerced, and the branch
input is the copy with `rank` and `keyword` normalized. -/
theorem validate_ok_decomp (t : Trend) (p : String) (b : Bool)
    (errs : List String) (n : Trend)
    (h : validate_trend_schema t p = .ok (b, errs, some n)) :
    ∃ base nrm2 : Trend,
      (p = "google" ∨ p = "twitter") ∧
      (if p = "google" then googleNormalize t base
       else twitterNormalize t base) = .ok nrm2 ∧
      n = commonFields t nrm2 ∧
      b = errs.isEmpty ∧
      (b = true →
        regionOk (pyGet t "region" PyVal.none) = true ∧
        ∃ rk : Int, pyInt (pyGet t "rank" PyVal.none) = .ok rk ∧
          base = dictSet (dictSet t "rank" (.int rk)) "keyword"
            (.str (pyTrim (pyStr (pyGet t "keyword" PyVal.none))))) := by
  unfold validate_trend_schema validate_trend_schemaSt at h
  dsimp only at h
  unfold requiredFields at h
  by_cases hpg : p = "google"
  case pos =>
    rw [if_pos hpg] at h
    dsimp only at h
    cases hrk : pyInt (pyGet t "rank" PyVal.none) with
    | ok rk =>
      rw [hrk] at h
      dsimp only at h
      rw [if_pos hpg] at h
      by_cases hre : (requiredErrors t
          ["region", "rank", "keyword", "search_volume", "category",
            "velocity"]).isEmpty = true
      · rw [if_pos hre] at h
        by_cases hreg : regionOk (pyGet t "region" PyVal.none) = true
        · rw [if_pos hreg] at h
          cases hgn : googleNormalize t
              (dictSet (dictSet t "rank" (.int rk)) "keyword"
                (.str (pyTrim (pyStr (pyGet t "keyword" PyVal.none))))) with
          | error e => rw [hgn] at h; cases h
          | ok nrm2 =>
            rw [hgn] at h
            cases h
            exact ⟨_, nrm2, Or.inl hpg, by rw [if_pos hpg]; exact hgn, rfl, rfl,
              fun _ => ⟨hreg, rk, rfl, rfl⟩⟩
        · rw [if_neg hreg] at h
          cases hgn : googleNormalize t
              (dictSet (dictSet t "rank" (.int rk)) "keyword"
                (.str (pyTrim (pyStr (pyGet t "keyword" PyVal.none))))) with
          | error e => rw [hgn] at h; cases h
          | ok nrm2 =>
            rw [hgn] at h
            cases h
            exact ⟨_, nrm2, Or.inl hpg, by rw [if_pos hpg]; exact hgn, rfl, rfl,
              fun hb => absurd hb (by exact fun hb2 => Bool.noConfusion hb2)⟩
      · rw [if_neg hre] at h
        cases h
    | error e =>
      rw [hrk] at h
      dsimp only at h
      rw [if_pos hpg] at h
      by_cases hre : (requiredErrors t
          ["region", "rank", "keyword", "search_volume", "category",
            "velocity"]).isEmpty = true
      · rw [if_pos hre] at h
        by_cases hreg : regionOk (pyGet t "region" PyVal.none) = true
        · rw [if_pos hreg] at h
          cases hgn : googleNormalize t
              (dictSet t "keyword"
                (.str (pyTrim (pyStr (pyGet t "keyword" PyVal.none))))) with
          | error e2 => rw [hgn] at h; cases h
          | ok nrm2 =>
            rw [hgn] at h
            cases h
            exact ⟨_, nrm2, Or.inl hpg, by rw [if_pos hpg]; exact hgn, rfl, rfl,
              fun hb => Bool.noConfusion hb⟩
        · rw [if_neg hreg] at h
          cases hgn : googleNormalize t
              (dictSet t "keyword"
                (.str (pyTrim (pyStr (pyGet t "keyword" PyVal.none))))) with
          | error e2 => rw [hgn] at h; cases h
          | ok nrm2 =>
            rw [hgn] at h
            cases h
            exact ⟨_, nrm2, Or.inl hpg, by rw [if_pos hpg]; exact hgn, rfl, rfl,
              fun hb => Bool.noConfusion hb⟩
      · rw [if_neg hre] at h
        cases h
  case neg =>
    rw [if_neg hpg] at h
    by_cases hpt : p = "twitter"
    case pos =>
      rw [if_pos hpt] at h
      dsimp only at h
      cases hrk : pyInt (pyGet t "rank" PyVal.none) with
      | ok rk =>
        rw [hrk] at h
        dsimp only at h
        rw [if_neg hpg] at h
        by_cases hre : (requiredErrors t
            ["region", "rank", "keyword", "mention_volume", "category",
              "velocity"]).isEmpty = true
        · rw [if_pos hre] at h
          by_cases hreg : regionOk (pyGet t "region" PyVal.none) = true
          · rw [if_pos hreg] at h
            cases hgn : twitterNormalize t
                (dictSet (dictSet t "rank" (.int rk)) "keyword"
                  (.str (pyTrim (pyStr (pyGet t "keyword" PyVal.none))))) with
            | error e => rw [hgn] at h; cases h
            | ok nrm2 =>
              rw [hgn] at h
              cases h
              exact ⟨_, nrm2, Or.inr hpt, by rw [if_neg hpg]; exact hgn, rfl, rfl,
                fun _ => ⟨hreg, rk, rfl, rfl⟩⟩
          · rw [if_neg hreg] at h
            cases hgn : twitterNormalize t
                (dictSet (dictSet t "rank" (.int rk)) "keyword"
                  (.str (pyTrim (pyStr (pyGet t "keyword" PyVal.none))))) with
            | error e => rw [hgn] at h; cases h
            | ok nrm2 =>
              rw [hgn] at h
              cases h
              exact ⟨_, nrm2, Or.inr hpt, by rw [if_neg hpg]; exact hgn, rfl, rfl,
                fun hb => Bool.noConfusion hb⟩
        · rw [if_neg hre] at h
          cases h
      | error e =>
        rw [hrk] at h
        dsimp only at h
        rw [if_neg hpg] at h
        by_cases hre : (requiredErrors t
            ["region", "rank", "keyword", "mention_volume", "category",
              "velocity"]).isEmpty = true
        · rw [if_pos hre] at h
          by_cases hreg : regionOk (pyGet t "region" PyVal.none) = true
          · rw [if_pos hreg] at h
            cases hgn : twitterNormalize t
                (dictSet t "keyword"
                  (.str (pyTrim (pyStr (pyGet t "keyword" PyVal.none))))) with
            | error e2 => rw [hgn] at h; cases h
            | ok nrm2 =>
              rw [hgn] at h
              cases h
              exact ⟨_, nrm2, Or.inr hpt, by rw [if_neg hpg]; exact hgn, rfl, rfl,
                fun hb => Bool.noConfusion hb⟩
          · rw [if_neg hreg] at h
            cases hgn : twitterNormalize t
                (dictSet t "keyword"
                  (.str (pyTrim (pyStr (pyGet t "keyword" PyVal.none))))) with
            | error e2 => rw [hgn] at h; cases h
            | ok nrm2 =>
              rw [hgn] at h
              cases h
              exact ⟨_, nrm2, Or.inr hpt, by rw [if_neg hpg]; exact hgn, rfl, rfl,
                fun hb => Bool.noConfusion hb⟩
        · rw [if_neg hre] at h
          cases h
    case neg =>
      rw [if_neg hpt] at h
      cases h

/-- Field facts about the google branch's output: the volume, sentiment
and list fields hold the normalized values, and every other key is passed
through from the branch input. -/
theorem googleNormalize_gets (t base nrm2 : Trend)
    (h : googleNormalize t base = .ok nrm2) :
    dictGet nrm2 "search_volume" =
      some (.int (normalize_volume (pyGet t "search_volume" (.int 0)))) ∧
    dictGet nrm2 "public_sentiment" =
      some (.str (pyLower (pyStr (pyGet t "public_sentiment" (.str "curious"))))) ∧
    dictGet nrm2 "related_searches" =
      some (relatedToList (pyGet t "related_searches" (.list []))) ∧
    (∀ k : String, k ≠ "search_volume" → k ≠ "public_sentiment" →
      k ≠ "sentiment_score" → k ≠ "trend_type" → k ≠ "related_searches" →
      dictGet nrm2 k = dictGet base k) := by
  unfold googleNormalize at h
  dsimp only at h
  cases hsc : pyInt (pyGet t "sentiment_score" (.int 50)) with
  | error e => rw [hsc] at h; cases h
  | ok sc =>
    rw [hsc] at h
    dsimp only at h
    cases h
    refine ⟨by simp [dictGet_set_same, dictGet_set_ne],
      by simp [dictGet_set_same, dictGet_set_ne],
      by simp [dictGet_set_same, dictGet_set_ne], ?_⟩
    intro k h1 h2 h3 h4 h5
    rw [dictGet_set_ne _ _ _ _ (Ne.symm h5), dictGet_set_ne _ _ _ _ (Ne.symm h4),
        dictGet_set_ne _ _ _ _ (Ne.symm h3), dictGet_set_ne _ _ _ _ (Ne.symm h2),
        dictGet_set_ne _ _ _ _ (Ne.symm h1)]

/-- Field facts about the twitter branch's output. -/
theorem twitterNormalize_gets (t base nrm2 : Trend)
    (h : twitterNormalize t base = .ok nrm2) :
    dictGet nrm2 "mention_volume" =
      some (.int (normalize_volume (pyGet t "mention_volume" (.int 0)))) ∧
    (∃ ps : String, dictGet nrm2 "primary_sentiment" = some (.str ps)) ∧
    dictGet nrm2 "related_hashtags" =
      some (relatedToList (pyGet t "related_hashtags" (.list []))) ∧
    (∀ k : String, k ≠ "mention_volume" → k ≠ "primary_sentiment" →
      k ≠ "sentiment_intensity" → k ≠ "hashtag_type" →
      k ≠ "sentiment_excited" → k ≠ "sentiment_concerned" →
      k ≠ "sentiment_curious" → k ≠ "sentiment_celebrating" →
      k ≠ "sentiment_controversial" → k ≠ "sentiment_positive" →
      k ≠ "sentiment_neutral" → k ≠ "sentiment_negative" →
      k ≠ "related_hashtags" →
      dictGet nrm2 k = dictGet base k) := by
  unfold twitterNormalize twitterBreakdownFields at h
  dsimp only at h
  repeat' split at h
  all_goals cases h
  all_goals
    refine ⟨by simp [dictGet_set_same, dictGet_set_ne],
      ⟨lookupStr sentiment_map
          (pyLower (pyStr (pyGet t "primary_sentiment" (PyVal.str "curious"))))
          (pyLower (pyStr (pyGet t "primary_sentiment" (PyVal.str "curious")))),
        by simp [dictGet_set_same, dictGet_set_ne]⟩,
      by simp [dictGet_set_same, dictGet_set_ne], ?_⟩
  all_goals
    intro k h1 h2 h3 h4 h5 h6 h7 h8 h9 h10 h11 h12 h13
  all_goals
    rw [dictGet_set_ne _ _ _ _ (Ne.symm h13), dictGet_set_ne _ _ _ _ (Ne.symm h12),
        dictGet_set_ne _ _ _ _ (Ne.symm h11), dictGet_set_ne _ _ _ _ (Ne.symm h10),
        dictGet_set_ne _ _ _ _ (Ne.symm h9), dictGet_set_ne _ _ _ _ (Ne.symm h8),
        dictGet_set_ne _ _ _ _ (Ne.symm h7), dictGet_set_ne _ _ _ _ (Ne.symm h6),
        dictGet_set_ne _ _ _ _ (Ne.symm h5), dictGet_set_ne _ _ _ _ (Ne.symm h4),
        dictGet_set_ne _ _ _ _ (Ne.symm h3), dictGet_set_ne _ _ _ _ (Ne.symm h2),
        dictGet_set_ne _ _ _ _ (Ne.symm h1)]

/-- Every default `sentiment_breakdown` table yields five integer buckets
summing to 100, whatever the (mapped) primary sentiment is. -/
theorem defaultBreakdown_sum (primary : String) :
    ∃ a b c d e : Int,
      pyInt (pyGet (defaultBreakdown primary) "excited" (.int 0)) = .ok a ∧
      pyInt (pyGet (defaultBreakdown primary) "concerned" (.int 0)) = .ok b ∧
      pyInt (pyGet (defaultBreakdown primary) "curious" (.int 0)) = .ok c ∧
      pyInt (pyGet (defaultBreakdown primary) "celebrating" (.int 0)) = .ok d ∧
      pyInt (pyGet (defaultBreakdown primary) "controversial" (.int 0)) = .ok e ∧
      a + b + c + d + e = 100 := by
  unfold defaultBreakdown
  split
  · exact ⟨70, 0, 20, 10, 0, rfl, rfl, rfl, rfl, rfl, by decide⟩
  · split
    · exact ⟨0, 70, 20, 0, 10, rfl, rfl, rfl, rfl, rfl, by decide⟩
    · split
      · exact ⟨20, 0, 10, 70, 0, rfl, rfl, rfl, rfl, rfl, by decide⟩
      · split
        · exact ⟨0, 20, 20, 0, 60, rfl, rfl, rfl, rfl, rfl, by decide⟩
        · exact ⟨20, 20, 60, 0, 0, rfl, rfl, rfl, rfl, rfl, by decide⟩

/-- The post-breakdown block applied to a default table always writes five
buckets summing to 100. -/
theorem twitterBreakdownFields_default_sum (t : Trend) (P : String)
    (m nrm2 : Trend)
    (h : twitterBreakdownFields t (defaultBreakdown P) m = .ok nrm2) :
    ∃ a b c d e : Int,
      dictGet nrm2 "sentiment_excited" = some (.int a) ∧
      dictGet nrm2 "sentiment_concerned" = some (.int b) ∧
      dictGet nrm2 "sentiment_curious" = some (.int c) ∧
      dictGet nrm2 "sentiment_celebrating" = some (.int d) ∧
      dictGet nrm2 "sentiment_controversial" = some (.int e) ∧
      a + b + c + d + e = 100 := by
  obtain ⟨a, b2, c, d, e, ha, hbb, hc, hd, he, hsum⟩ := defaultBreakdown_sum P
  unfold twitterBreakdownFields at h
  rw [ha, hbb, hc, hd, he] at h
  dsimp only at h
  cases h
  exact ⟨a, b2, c, d, e,
    by simp [dictGet_set_same, dictGet_set_ne],
    by simp [dictGet_set_same, dictGet_set_ne],
    by simp [dictGet_set_same, dictGet_set_ne],
    by simp [dictGet_set_same, dictGet_set_ne],
    by simp [dictGet_set_same, dictGet_set_ne], hsum⟩

/-- When `sentiment_breakdown` is absent, falsy or not a dict, the twitter
branch synthesizes the default table, and the five per-bucket fields it
writes sum to exactly 100. -/
theorem twitterNormalize_default_breakdown (t base nrm2 : Trend)
    (hb : (pyFalsy (pyGet t "sentiment_breakdown" (.dict [])) ||
          !isDictVal (pyGet t "sentiment_breakdown" (.dict []))) = true)
    (h : twitterNormalize t base = .ok nrm2) :
    ∃ a b c d e : Int,
      dictGet nrm2 "sentiment_excited" = some (.int a) ∧
      dictGet nrm2 "sentiment_concerned" = some (.int b) ∧
      dictGet nrm2 "sentiment_curious" = some (.int c) ∧
      dictGet nrm2 "sentiment_celebrating" = some (.int d) ∧
      dictGet nrm2 "sentiment_controversial" = some (.int e) ∧
      a + b + c + d + e = 100 := by
  unfold twitterNormalize at h
  dsimp only at h
  cases hr : pyGet t "sentiment_breakdown" (PyVal.dict []) with
  | dict dd =>
    rw [hr] at hb h
    have hf : pyFalsy (PyVal.dict dd) = true := by simpa [isDictVal] using hb
    dsimp only at h
    rw [if_pos hf] at h
    exact twitterBreakdownFields_default_sum t _ _ nrm2 h
  | none =>
    rw [hr] at h; dsimp only at h
    exact twitterBreakdownFields_default_sum t _ _ nrm2 h
  | bool b2 =>
    rw [hr] at h; dsimp only at h
    exact twitterBreakdownFields_default_sum t _ _ nrm2 h
  | int n2 =>
    rw [hr] at h; dsimp only at h
    exact twitterBreakdownFields_default_sum t _ _ nrm2 h
  | float n2 d2 =>
    rw [hr] at h; dsimp only at h
    exact twitterBreakdownFields_default_sum t _ _ nrm2 h
  | str s2 =>
    rw [hr] at h; dsimp only at h
    exact twitterBreakdownFields_default_sum t _ _ nrm2 h
  | list l2 =>
    rw [hr] at h; dsimp only at h
    exact twitterBreakdownFields_default_sum t _ _ nrm2 h

/-- The function `commonFields` writes only the four common keys; every other key is
passed through. -/
theorem dictGet_commonFields_pass (t m : Trend) (k : String)
    (h1 : k ≠ "velocity") (h2 : k ≠ "category") (h3 : k ≠ "context")
    (h4 : k ≠ "why_trending") :
    dictGet (commonFields t m) k = dictGet m k := by
  unfold commonFields
  rw [dictGet_set_ne _ _ _ _ (Ne.symm h4), dictGet_set_ne _ _ _ _ (Ne.symm h3),
      dictGet_set_ne _ _ _ _ (Ne.symm h2), dictGet_set_ne _ _ _ _ (Ne.symm h1)]

/-- The function `commonFields` always writes the snake-cased velocity. -/
theorem dictGet_commonFields_velocity (t m : Trend) :
    dictGet (commonFields t m) "velocity" =
      some (.str (snakeVelocity (pyStr (pyGet t "velocity" (.str "steady"))))) := by
  unfold commonFields
  simp [dictGet_set_same, dictGet_set_ne]

/-- The velocity normalizer's output holds no upper-case letter, no space
and no hyphen. -/
theorem snakeVelocity_ok (s0 : String) :
    ((snakeVelocity s0).data.all
      (fun c => !c.isUpper && c ≠ ' ' && c ≠ '-')) = true := by
  unfold snakeVelocity
  rw [List.all_eq_true]
  intro c hc
  obtain ⟨c0, hc0, rfl⟩ := List.mem_map.mp hc
  dsimp only
  by_cases hsp : (c0.toLower = ' ' ∨ c0.toLower = '-')
  · rw [if_pos hsp]
    decide
  · rw [if_neg hsp]
    rw [not_or] at hsp
    simp [isUpper_toLower c0, hsp.1, hsp.2]

/-! ## Remaining claims -/

/-- C8: whenever `sentiment_breakdown` is absent, falsy or not a mapping
on a twitter record that yields a normalized output, the five synthesized
integer bucket fields sum to exactly 100 — for the four mapped
`primary_sentiment` values and for every unrecognized value alike (the
latter through the curious-dominant fallback table). -/
theorem C8_default_breakdown_sums (t : Trend) (b : Bool) (errs : List String)
    (n : Trend)
    (h : validate_trend_schema t "twitter" = .ok (b, errs, some n))
    (hb : (pyFalsy (pyGet t "sentiment_breakdown" (.dict [])) ||
          !isDictVal (pyGet t "sentiment_breakdown" (.dict []))) = true) :
    ∃ a b2 c d e : Int,
      dictGet n "sentiment_excited" = some (.int a) ∧
      dictGet n "sentiment_concerned" = some (.int b2) ∧
      dictGet n "sentiment_curious" = some (.int c) ∧
      dictGet n "sentiment_celebrating" = some (.int d) ∧
      dictGet n "sentiment_controversial" = some (.int e) ∧
      a + b2 + c + d + e = 100 := by
  obtain ⟨base, nrm2, hp2, hbr, hnn, hbe, hsucc⟩ :=
    validate_ok_decomp t "twitter" b errs n h
  rw [if_neg (by decide)] at hbr
  obtain ⟨a, b2, c, d, e, h1, h2, h3, h4, h5, hsum⟩ :=
    twitterNormalize_default_breakdown t base nrm2 hb hbr
  subst hnn
  refine ⟨a, b2, c, d, e, ?_, ?_, ?_, ?_, ?_, hsum⟩ <;>
    rw [dictGet_commonFields_pass t nrm2 _ (by decide) (by decide) (by decide)
      (by decide)]
  · exact h1
  · exact h2
  · exact h3
  · exact h4
  · exact h5

/-- A twitter record with an unmapped `primary_sentiment` and no
breakdown, used as the C8 witness input. -/
def twRec : Trend :=
  [("region", .str "India"), ("rank", .int 2), ("keyword", .str "tag"),
   ("mention_volume", .str "250K"), ("category", .str "News"),
   ("velocity", .str "hot"), ("primary_sentiment", .str "whatever")]

/-- The normalized output of `twRec`. -/
def twRecN : Trend :=
  [("region", .str "India"), ("rank", .int 2), ("keyword", .str "tag"),
   ("mention_volume", .int 250000), ("category", .str "News"),
   ("velocity", .str "hot"), ("primary_sentiment", .str "whatever"),
   ("sentiment_intensity", .str "moderate"), ("hashtag_type", .str "keyword"),
   ("sentiment_excited", .int 20), ("sentiment_concerned", .int 20),
   ("sentiment_curious", .int 60), ("sentiment_celebrating", .int 0),
   ("sentiment_controversial", .int 0), ("sentiment_positive", .int 20),
   ("sentiment_neutral", .int 60), ("sentiment_negative", .int 20),
   ("related_hashtags", .list []), ("context", .str ""),
   ("why_trending", .str "")]

/-- C8 witness: the theorem applied to a concrete record whose
`primary_sentiment` is outside the four known values. -/
theorem C8_default_breakdown_sums_witness :
    ∃ a b2 c d e : Int,
      dictGet twRecN "sentiment_excited" = some (.int a) ∧
      dictGet twRecN "sentiment_concerned" = some (.int b2) ∧
      dictGet twRecN "sentiment_curious" = some (.int c) ∧
      dictGet twRecN "sentiment_celebrating" = some (.int d) ∧
      dictGet twRecN "sentiment_controversial" = some (.int e) ∧
      a + b2 + c + d + e = 100 :=
  C8_default_breakdown_sums twRec true [] twRecN rfl rfl

/-- C6 counterexample: a search record whose required fields are all
present and valid but whose non-required `sentiment_score` cannot be
coerced is rejected: the unguarded `int()` raises, the batch handler
catches it, and the record lands in the error ledger instead of the valid
list — it does not degrade to the default 50. -/
theorem C6_counterexample :
    validate_and_normalize_trends (.list [.dict gRecBadScore]) "google" =
      .ok ([], ⟨1, 0, 1, [⟨0, .str "kw",
        ["Validation error: ValueError: invalid literal for int: garbage"]⟩]⟩) :=
  rfl

/-- C6 amended: an uncoercible `search_volume` string degrades silently to
`normalize_volume`'s fallback and the record still validates; an
uncoercible `sentiment_score`, however, raises out of
`validate_trend_schema` and the record is rejected through the batch-level
catch. -/
theorem C6_volume_degrades_score_raises :
    (∀ v : String, pyTrim v ≠ "" →
      ∃ n : Trend, validate_trend_schema (svTemplate v) "google" =
        .ok (true, [], some n) ∧
        dictGet n "search_volume" = some (.int (normalize_volume (.str v)))) ∧
    validate_trend_schema gRecBadScore "google" =
      .error "ValueError: invalid literal for int: garbage" := by
  refine ⟨?_, rfl⟩
  intro v hv
  have hv2 : (pyTrim v == "") = false := by
    rw [beq_eq_false_iff_ne]
    exact hv
  have e1 : missingOrEmpty (svTemplate v) "region" = false := rfl
  have e2 : missingOrEmpty (svTemplate v) "rank" = false := rfl
  have e3 : missingOrEmpty (svTemplate v) "keyword" = false := rfl
  have e4 : missingOrEmpty (svTemplate v) "search_volume" = (pyTrim v == "") := rfl
  have e5 : missingOrEmpty (svTemplate v) "category" = false := rfl
  have e6 : missingOrEmpty (svTemplate v) "velocity" = false := rfl
  have hre : requiredErrors (svTemplate v)
      ["region", "rank", "keyword", "search_volume", "category", "velocity"] =
      [] := by
    simp [requiredErrors, e1, e2, e3, e4, e5, e6, hv2]
  refine ⟨[("region", .str "USA"), ("rank", .int 1), ("keyword", .str "kw"),
    ("search_volume", .int (normalize_volume (.str v))),
    ("category", .str "Tech"), ("velocity", .str "steady"),
    ("public_sentiment", .str "curious"), ("sentiment_score", .int 50),
    ("trend_type", .str "search"), ("related_searches", .list []),
    ("context", .str ""), ("why_trending", .str "")], ?_, ?_⟩
  · unfold validate_trend_schema validate_trend_schemaSt
    dsimp only
    rw [show requiredFields "google" =
      .ok ["region", "rank", "keyword", "search_volume", "category",
        "velocity"] from rfl]
    dsimp only
    rw [hre]
    rfl
  · rfl

/-- C6 witness: the amended theorem applied to the volume string
`"garbage"`. -/
theorem C6_volume_degrades_score_raises_witness :
    ∃ n : Trend, validate_trend_schema (svTemplate "garbage") "google" =
      .ok (true, [], some n) ∧
      dictGet n "search_volume" = some (.int (normalize_volume (.str "garbage"))) :=
  C6_volume_degrades_score_raises.1 "garbage" (by decide)

/-- Every record in the batch's valid output came from a fully successful
`validate_trend_schema` run (success flag `true` and a produced
normalized record). -/
theorem processAll_valid_from_validate (p : String) :
    ∀ (l : List PyVal) (idx : Nat) (acc res : List Trend × Report),
      processAll p l idx acc = .ok res →
      ∀ n ∈ res.1, n ∈ acc.1 ∨
        ∃ (t : Trend) (errs : List String),
          validate_trend_schema t p = .ok (true, errs, some n) := by
  intro l
  induction l with
  | nil =>
    intro idx acc res h n hn
    unfold processAll at h
    cases h
    exact Or.inl hn
  | cons t rest ih =>
    intro idx acc res h n hn
    unfold processAll at h
    cases hs : processTrend p idx t acc with
    | error e => rw [hs] at h; cases h
    | ok acc2 =>
      rw [hs] at h
      rcases ih (idx + 1) acc2 res h n hn with hmem | hex
      · cases t with
        | dict d =>
          unfold processTrend at hs
          dsimp only at hs
          cases hv : validate_trend_schema d p with
          | error e =>
            rw [hv] at hs
            cases hs
            exact Or.inl hmem
          | ok res2 =>
            obtain ⟨isV, errs, nrm⟩ := res2
            rw [hv] at hs
            cases nrm with
            | none =>
              cases hs
              exact Or.inl hmem
            | some nd =>
              dsimp only at hs
              split at hs
              case isTrue hc =>
                cases hs
                rcases List.mem_append.mp hmem with h1 | h1
                · exact Or.inl h1
                · have hnd : n = nd := List.mem_singleton.mp h1
                  subst hnd
                  have hisv : isV = true := by
                    simp only [Bool.and_eq_true] at hc
                    exact hc.1
                  rw [hisv] at hv
                  exact Or.inr ⟨d, errs, hv⟩
              case isFalse =>
                cases hs
                exact Or.inl hmem
        | none => exact absurd hs (by simp [processTrend])
        | bool b => exact absurd hs (by simp [processTrend])
        | int n2 => exact absurd hs (by simp [processTrend])
        | float n2 d2 => exact absurd hs (by simp [processTrend])
        | str s => exact absurd hs (by simp [processTrend])
        | list xs => exact absurd hs (by simp [processTrend])
      · exact Or.inr hex

/-- A fully successful validation pinned down: the region value is one of
the two literals. -/
theorem regionOk_values (t : Trend)
    (h : regionOk (pyGet t "region" PyVal.none) = true) :
    dictGet t "region" = some (.str "USA") ∨
    dictGet t "region" = some (.str "India") := by
  unfold pyGet at h
  cases hdr : dictGet t "region" with
  | none =>
    rw [hdr] at h
    exact Bool.noConfusion h
  | some v =>
    rw [hdr] at h
    cases v with
    | str s =>
      simp only [Option.getD, regionOk, Bool.or_eq_true, beq_iff_eq] at h
      rcases h with h2 | h2 <;> rw [h2]
      · exact Or.inl rfl
      · exact Or.inr rfl
    | none => exact Bool.noConfusion h
    | bool b => exact Bool.noConfusion h
    | int n2 => exact Bool.noConfusion h
    | float n2 d2 => exact Bool.noConfusion h
    | list xs => exact Bool.noConfusion h
    | dict d => exact Bool.noConfusion h

/-- C9 amended: every record in a batch's valid output has an integer
rank, a non-negative integer volume field, a region equal to `"USA"` or
`"India"`, a velocity with no upper-case letters, spaces or hyphens, a
sentiment field that is a (lower-cased or table-mapped) string — though
not one restricted to any closed vocabulary — and a list-valued
related-searches/hashtags field. -/
theorem C9_valid_records_typed (l : List PyVal) (platform : String)
    (valid : List Trend) (r : Report)
    (hp : platform = "google" ∨ platform = "twitter")
    (h : validate_and_normalize_trends (.list l) platform = .ok (valid, r)) :
    ∀ n ∈ valid,
      (∃ rk : Int, dictGet n "rank" = some (.int rk)) ∧
      (∃ m : Int, 0 ≤ m ∧
        dictGet n (if platform = "google" then "search_volume"
          else "mention_volume") = some (.int m)) ∧
      (dictGet n "region" = some (.str "USA") ∨
        dictGet n "region" = some (.str "India")) ∧
      (∃ s : String, dictGet n "velocity" = some (.str s) ∧
        (s.data.all (fun c => !c.isUpper && c ≠ ' ' && c ≠ '-')) = true) ∧
      (∃ ps : String,
        dictGet n (if platform = "google" then "public_sentiment"
          else "primary_sentiment") = some (.str ps)) ∧
      (∃ xs : List PyVal,
        dictGet n (if platform = "google" then "related_searches"
          else "related_hashtags") = some (.list xs)) := by
  intro n hn
  unfold validate_and_normalize_trends at h
  rcases processAll_valid_from_validate platform l 0 _ _ h n hn with
    hmem | ⟨t, errs, hv⟩
  · exact absurd hmem (List.not_mem_nil n)
  · obtain ⟨base, nrm2, hp2, hbr, hnn, hbe, hsucc⟩ :=
      validate_ok_decomp t platform true errs n hv
    obtain ⟨hreg, rk, hrk, hbase⟩ := hsucc rfl
    subst hnn
    subst hbase
    have hregv := regionOk_values t hreg
    rcases hp with hpg | hpt
    · subst hpg
      rw [if_pos rfl] at hbr
      obtain ⟨hsv, hps, hrs, hpass⟩ := googleNormalize_gets t _ nrm2 hbr
      rw [if_pos rfl, if_pos rfl, if_pos rfl]
      refine ⟨⟨rk, ?_⟩, ⟨normalize_volume (pyGet t "search_volume" (.int 0)),
        normalize_volume_nonneg _, ?_⟩, ?_, ?_, ?_, ?_⟩
      · rw [dictGet_commonFields_pass _ _ _ (by decide) (by decide) (by decide)
          (by decide)]
        rw [hpass _ (by decide) (by decide) (by decide) (by decide) (by decide)]
        rw [dictGet_set_ne _ _ _ _ (by decide)]
        exact dictGet_set_same _ _ _
      · rw [dictGet_commonFields_pass _ _ _ (by decide) (by decide) (by decide)
          (by decide)]
        exact hsv
      · rw [dictGet_commonFields_pass _ _ _ (by decide) (by decide) (by decide)
          (by decide)]
        rw [hpass _ (by decide) (by decide) (by decide) (by decide) (by decide)]
        rw [dictGet_set_ne _ _ _ _ (by decide), dictGet_set_ne _ _ _ _ (by decide)]
        exact hregv
      · exact ⟨_, dictGet_commonFields_velocity t nrm2, snakeVelocity_ok _⟩
      · exact ⟨_, by
          rw [dictGet_commonFields_pass _ _ _ (by decide) (by decide) (by decide)
            (by decide)]
          exact hps⟩
      · obtain ⟨xs, hxs⟩ := relatedToList_is_list
          (pyGet t "related_searches" (.list []))
        refine ⟨xs, ?_⟩
        rw [dictGet_commonFields_pass _ _ _ (by decide) (by decide) (by decide)
          (by decide)]
        rw [hrs, hxs]
    · subst hpt
      rw [if_neg (by decide)] at hbr
      obtain ⟨hsv, ⟨ps, hps⟩, hrs, hpass⟩ := twitterNormalize_gets t _ nrm2 hbr
      rw [if_neg (by decide), if_neg (by decide), if_neg (by decide)]
      refine ⟨⟨rk, ?_⟩, ⟨normalize_volume (pyGet t "mention_volume" (.int 0)),
        normalize_volume_nonneg _, ?_⟩, ?_, ?_, ?_, ?_⟩
      · rw [dictGet_commonFields_pass _ _ _ (by decide) (by decide) (by decide)
          (by decide)]
        rw [hpass _ (by decide) (by decide) (by decide) (by decide) (by decide)
          (by decide) (by decide) (by decide) (by decide) (by decide) (by decide)
          (by decide) (by decide)]
        rw [dictGet_set_ne _ _ _ _ (by decide)]
        exact dictGet_set_same _ _ _
      · rw [dictGet_commonFields_pass _ _ _ (by decide) (by decide) (by decide)
          (by decide)]
        exact hsv
      · rw [dictGet_commonFields_pass _ _ _ (by decide) (by decide) (by decide)
          (by decide)]
        rw [hpass _ (by decide) (by decide) (by decide) (by decide) (by decide)
          (by decide) (by decide) (by decide) (by decide) (by decide) (by decide)
          (by decide) (by decide)]
        rw [dictGet_set_ne _ _ _ _ (by decide), dictGet_set_ne _ _ _ _ (by decide)]
        exact hregv
      · exact ⟨_, dictGet_commonFields_velocity t nrm2, snakeVelocity_ok _⟩
      · exact ⟨ps, by
          rw [dictGet_commonFields_pass _ _ _ (by decide) (by decide) (by decide)
            (by decide)]
          exact hps⟩
      · obtain ⟨xs, hxs⟩ := relatedToList_is_list
          (pyGet t "related_hashtags" (.list []))
        refine ⟨xs, ?_⟩
        rw [dictGet_commonFields_pass _ _ _ (by decide) (by decide) (by decide)
          (by decide)]
        rw [hrs, hxs]

/-- The normalized output of `gRecBananas`. -/
def nBan : Trend :=
  [("region", .str "USA"), ("rank", .int 1), ("keyword", .str "kw"),
   ("search_volume", .int 10), ("category", .str "Tech"),
   ("velocity", .str "steady"), ("public_sentiment", .str "bananas"),
   ("sentiment_score", .int 50), ("trend_type", .str "search"),
   ("related_searches", .list []), ("context", .str ""),
   ("why_trending", .str "")]

/-- C9 counterexample: sentiment fields are not coerced to a closed
vocabulary — an arbitrary word like `"bananas"` passes through lower-cased
and lands verbatim in the valid output, so no fixed vocabulary can contain
every reachable value. -/
theorem C9_counterexample :
    validate_and_normalize_trends (.list [.dict gRecBananas]) "google" =
      .ok ([nBan], ⟨1, 1, 0, []⟩) ∧
    dictGet nBan "public_sentiment" = some (.str "bananas") ∧
    "bananas" ∉ (["excited", "concerned", "curious", "celebrating",
      "controversial", "positive", "negative", "neutral", "mixed"] :
      List String) :=
  ⟨rfl, rfl, by decide⟩

/-- C9 witness: the amended theorem applied to the concrete one-record
batch built from `gRecBananas`. -/
theorem C9_valid_records_typed_witness :
    (∃ rk : Int, dictGet nBan "rank" = some (.int rk)) ∧
    (∃ m : Int, 0 ≤ m ∧
      dictGet nBan (if "google" = "google" then "search_volume"
        else "mention_volume") = some (.int m)) ∧
    (dictGet nBan "region" = some (.str "USA") ∨
      dictGet nBan "region" = some (.str "India")) ∧
    (∃ s : String, dictGet nBan "velocity" = some (.str s) ∧
      (s.data.all (fun c => !c.isUpper && c ≠ ' ' && c ≠ '-')) = true) ∧
    (∃ ps : String,
      dictGet nBan (if "google" = "google" then "public_sentiment"
        else "primary_sentiment") = some (.str ps)) ∧
    (∃ xs : List PyVal,
      dictGet nBan (if "google" = "google" then "related_searches"
        else "related_hashtags") = some (.list xs)) :=
  C9_valid_records_typed [.dict gRecBananas] "google" [nBan] ⟨1, 1, 0, []⟩
    (Or.inl rfl) rfl nBan (List.mem_singleton.mpr rfl)

end FeedRoom
